import Mathlib

/-!
# start-influxdb: seed selection and peer discovery

A shallow embedding of `start-influxdb.go`.  Go strings are lists of characters,
`net.IP` is a list of byte values, the process environment is a partial map from
names to values, and everything the program asks of the outside (interface
enumeration, file creation, DNS, the orchestrator client, the hostname) is a
field of `World`.  Functions that talk to the outside return the list of calls
they made together with their result; a result of `Except.error` is a run that
ended the process.
-/

set_option autoImplicit false

namespace StartInfluxdb

/-- Go `string`. -/
abbrev GoString := List Char

/-- Go `net.IP`: a slice of bytes, 4 or 16 of them for a valid address. -/
abbrev IP := List Nat

/-- The process environment: `none` is an unset variable. -/
abbrev Env := GoString → Option GoString

/-! ## Standard library functions used by the program -/

/-- Go `os.Getenv`: the value of the variable, empty when it is unset. -/
def os.Getenv (env : Env) (key : GoString) : GoString :=
  (env key).getD []

/-- Go `os.Setenv`. -/
def os.Setenv (env : Env) (key value : GoString) : Env :=
  fun k => if k = key then some value else env k

/-- Go `os.isShellSpecialVar`. -/
def os.isShellSpecialVar (c : Char) : Bool :=
  c ∈ ['*', '#', '$', '@', '!', '?', '-', '0', '1', '2', '3', '4', '5', '6', '7', '8', '9']

/-- Go `os.isAlphaNum`. -/
def os.isAlphaNum (c : Char) : Bool :=
  c = '_' || ('0' ≤ c && c ≤ '9') || ('a' ≤ c && c ≤ 'z') || ('A' ≤ c && c ≤ 'Z')

/-- The scan of `os.getShellName` for the closing brace, on the text after the
opening one: no closing brace eats the opening brace only, an empty name eats both
braces, otherwise the name is the text between the braces. -/
def os.scanBrace (rest : GoString) : GoString × Nat :=
  let body := rest.takeWhile (fun x => x ≠ '\x7d')
  if body.length = rest.length then ([], 1)
  else if body = [] then ([], 2)
  else (body, body.length + 2)

/-- Go `os.getShellName`: the variable name that starts the text after a `$`, and
how many characters of that text it takes.  Called on non-empty text only. -/
def os.getShellName (s : GoString) : GoString × Nat :=
  match s with
  | [] => ([], 0)
  | c :: rest =>
    if c = '\x7b' then
      match rest with
      | c1 :: c2 :: _ =>
        if os.isShellSpecialVar c1 ∧ c2 = '\x7d' then ([c1], 3) else os.scanBrace rest
      | _ => os.scanBrace rest
    else if os.isShellSpecialVar c then ([c], 1)
    else
      let name := s.takeWhile os.isAlphaNum
      (name, name.length)

/-- The loop of Go `os.Expand`.  The first argument is the number of characters
still to be skipped because they belong to the variable reference just replaced
(the source advances its index by the width `getShellName` returns).  A `$` that
ends the text is copied; a reference with bad syntax is eaten; a `$` followed by
no name is kept (older Go releases drop it; no statement below rests on that
case). -/
def os.expandLoop (mapping : GoString → GoString) : Nat → GoString → GoString
  | _, [] => []
  | skip + 1, _ :: rest => os.expandLoop mapping skip rest
  | 0, c :: rest =>
    if c = '$' ∧ rest ≠ [] then
      let nw := os.getShellName rest
      (if nw.1 = [] ∧ 0 < nw.2 then []
       else if nw.1 = [] then ['$']
       else mapping nw.1) ++ os.expandLoop mapping nw.2 rest
    else c :: os.expandLoop mapping 0 rest

/-- Go `os.Expand`. -/
def os.Expand (s : GoString) (mapping : GoString → GoString) : GoString :=
  os.expandLoop mapping 0 s

/-- Go `os.ExpandEnv`: `Expand` with `Getenv` as the mapping. -/
def os.ExpandEnv (env : Env) (s : GoString) : GoString :=
  os.Expand s (os.Getenv env)

/-- Go `strings.HasPrefix`. -/
def strings.HasPrefix (s pre : GoString) : Bool :=
  pre.isPrefixOf s

/-- Go `strings.Split` for a separator of one character: the pieces of `s` between
the occurrences of `sep`, one more piece than there are separators. -/
def strings.Split (s : GoString) (sep : Char) : List GoString :=
  match s with
  | [] => [[]]
  | c :: rest =>
    if c = sep then [] :: strings.Split rest sep
    else
      match strings.Split rest sep with
      | [] => [[c]]
      | piece :: pieces => (c :: piece) :: pieces

/-- Go `strconv.ParseBool`; `none` is the syntax error. -/
def strconv.ParseBool (str : GoString) : Option Bool :=
  if str ∈ ["1".toList, "t".toList, "T".toList, "true".toList, "TRUE".toList, "True".toList] then
    some true
  else if str ∈ ["0".toList, "f".toList, "F".toList, "false".toList, "FALSE".toList,
      "False".toList] then
    some false
  else none

/-- Go `strconv.Atoi` with a 64-bit `int`: an optional sign and then decimal digits;
`none` is the syntax error or the range error. -/
def strconv.Atoi (s : GoString) : Option Int :=
  match s with
  | [] => none
  | c :: rest =>
    let neg := decide (c = '-')
    let digits := if c = '+' ∨ c = '-' then rest else s
    if digits = [] ∨ ¬ digits.all Char.isDigit then none
    else
      let n : Nat := digits.foldl (fun acc d => acc * 10 + (d.toNat - 48)) 0
      if neg then (if n ≤ 2 ^ 63 then some (-(n : Int)) else none)
      else (if n < 2 ^ 63 then some (n : Int) else none)

/-- Go `net.IP.To4`; `none` is the nil result. -/
def net.To4 (ip : IP) : Option IP :=
  if ip.length = 4 then some ip
  else if ip.length = 16 ∧ (ip.take 10).all (fun b => b = 0) ∧ ip.get? 10 = some 255
      ∧ ip.get? 11 = some 255 then some (ip.drop 12)
  else none

/-- Go `net.IP.IsLoopback`. -/
def net.IsLoopback (ip : IP) : Bool :=
  match net.To4 ip with
  | some ip4 => ip4.head? = some 127
  | none => ip = [0, 0, 0, 0, 0, 0, 0, 0, 0, 0, 0, 0, 0, 0, 0, 1]

/-- Decimal text of a natural number (Go `uitoa`). -/
def uitoa (n : Nat) : GoString :=
  Nat.toDigits 10 n

/-- Go `net.IP.String`: `<nil>` for the empty slice and dotted decimal for an IPv4
address; the text of any other address is given by `other`. -/
def net.ipString (other : IP → GoString) (ip : IP) : GoString :=
  if ip.length = 0 then "<nil>".toList
  else
    match net.To4 ip with
    | some [a, b, c, d] => uitoa a ++ ".".toList ++ uitoa b ++ ".".toList ++ uitoa c ++ ".".toList
        ++ uitoa d
    | _ => other ip

/-- Go `%d` applied to an `int`. -/
def fmtInt (n : Int) : GoString :=
  if n < 0 then '-' :: uitoa n.natAbs else uitoa n.toNat

/-! ## The program -/

/-! The names of the environment variables the program reads, and the text it
expands for the endpoint the platform injects. -/

def INFLUXDB_BROKER_PORT : GoString := "INFLUXDB_BROKER_PORT".toList
def INFLUXDB_SEEDS : GoString := "INFLUXDB_SEEDS".toList
def CLUSTER_DNS : GoString := "CLUSTER_DNS".toList
def KUBERNETES_MASTER : GoString := "KUBERNETES_MASTER".toList
def KUBERNETES_SELECTOR : GoString := "KUBERNETES_SELECTOR".toList
def KUBERNETES_INSECURE : GoString := "KUBERNETES_INSECURE".toList
def KUBERNETES_NAMESPACE : GoString := "KUBERNETES_NAMESPACE".toList
def KUBERNETES_SERVICE_HOST : GoString := "KUBERNETES_SERVICE_HOST".toList
def KUBERNETES_SERVICE_PORT : GoString := "KUBERNETES_SERVICE_PORT".toList
def IP_ADDRESS : GoString := "IP_ADDRESS".toList

/-- The text expanded on line 113. -/
def serviceEndpoint : GoString :=
  "${KUBERNETES_SERVICE_HOST}:${KUBERNETES_SERVICE_PORT}".toList

/-- The constant `defaultBrokerPort`. -/
def defaultBrokerPort : Int := 8086

/-- Modelled from the spec: `api.PodRunning`, a constant of the Kubernetes client
library, which is not part of this repository; the phase the spec names "Running". -/
def PodRunning : GoString := "Running".toList

/-- Go `net.Addr` as the program looks at it: a `*net.IPNet` with its address, or
any other implementation of the interface. -/
inductive Addr where
  | ipNet (ip : IP)
  | other
  deriving DecidableEq

/-- The fields of a pod record the program reads: `pod.Name`, `pod.Status.Phase`
and `pod.Status.PodIP`. -/
structure Pod where
  Name : GoString
  Phase : GoString
  PodIP : GoString
  deriving DecidableEq

/-- The fields of `client.Config` the program sets. -/
structure Config where
  Host : GoString
  Insecure : Bool
  deriving DecidableEq

/-- A parsed label selector, as returned by `labels.Parse`. -/
structure Selector where
  id : Nat
  deriving DecidableEq

/-- What the program asks of the outside world. -/
structure World where
  /-- the process environment at start -/
  env : Env
  /-- `net.InterfaceAddrs`; `none` is an error -/
  interfaceAddrs : Option (List Addr)
  /-- whether `os.Create` of the configuration file succeeds -/
  createFile : Bool
  /-- `net.LookupIP`; `none` is an error -/
  lookupIP : GoString → Option (List IP)
  /-- `net.ParseIP`; `none` is the nil result -/
  parseIP : GoString → Option IP
  /-- the text `net.IP.String` gives for an address that is not IPv4 -/
  ipStringOther : IP → GoString
  /-- whether `client.New` succeeds on a configuration; `client.NewOrDie` panics
  when it does not -/
  newClient : Config → Bool
  /-- `labels.Parse`; `none` is an error -/
  labelsParse : GoString → Option Selector
  /-- the constant `api.NamespaceDefault` -/
  namespaceDefault : GoString
  /-- `Pods(namespace).List(selector, fields.Everything())` on the client built
  from a configuration; `none` is an error -/
  podsList : Config → GoString → Selector → Option (List Pod)
  /-- `os.Hostname`; `none` is an error, on which the returned name is empty -/
  hostname : Option GoString

/-- A call the program makes that the claims speak about. -/
inductive Call where
  | discoverSeeds
  | lookupIP (host : GoString)
  | newClient (cfg : Config)
  | labelsParse (selector : GoString)
  | podsList (cfg : Config) (ns : GoString) (selector : Selector)
  | hostname
  deriving DecidableEq

/-- The ways a run ends the process before the template is executed. -/
inductive Fatal where
  /-- `net.InterfaceAddrs` failed: `os.Exit(1)` -/
  | interfaceAddrs
  /-- `os.Create` failed: `log.Fatal` -/
  | createFile
  /-- `client.NewOrDie` panicked -/
  | clientDied
  deriving DecidableEq

deriving instance DecidableEq for Except

/-- The calls made and the result. -/
abbrev Run (α : Type) := List Call × Except Fatal α

/-- `discoverSeedsFromDNS` (lines 101-108). -/
def discoverSeedsFromDNS (w : World) : Run (List IP) :=
  let name := os.Getenv w.env CLUSTER_DNS
  match w.lookupIP name with
  | none => ([Call.lookupIP name], .ok [])
  | some ips => ([Call.lookupIP name], .ok ips)

/-- Lines 113-118 of `discoverSeedsFromKubernetesMaster`: the endpoint before the
scheme is looked at. -/
def kubeMasterEndpoint (env : Env) : GoString :=
  let kubeMaster := os.ExpandEnv env serviceEndpoint
  let kubeMaster :=
    if 0 < (os.Getenv env KUBERNETES_MASTER).length then
      os.Getenv env KUBERNETES_MASTER
    else kubeMaster
  os.ExpandEnv env kubeMaster

/-- The text `http://`. -/
def schemeHTTP : GoString := "http://".toList

/-- The text `https://`. -/
def schemeHTTPS : GoString := "https://".toList

/-- Lines 121-123: an endpoint without a scheme gets `https://`. -/
def withScheme (kubeMaster : GoString) : GoString :=
  if !(strings.HasPrefix kubeMaster schemeHTTP || strings.HasPrefix kubeMaster schemeHTTPS) then
    schemeHTTPS ++ kubeMaster
  else kubeMaster

/-- Lines 124-128: the configuration handed to `client.NewOrDie`. -/
def clientConfig (env : Env) (kubeMaster : GoString) : Config :=
  let insecure := (strconv.ParseBool (os.Getenv env KUBERNETES_INSECURE)).getD false
  { Host := os.ExpandEnv env kubeMaster
    Insecure := decide (0 < (os.Getenv env KUBERNETES_INSECURE).length) && insecure }

/-- Lines 147-154: the loop over the listed pods. -/
def collectPodIPs (parseIP : GoString → Option IP) (currentHostname : GoString)
    (items : List Pod) : List IP :=
  items.foldl
    (fun seeds pod =>
      if pod.Phase = PodRunning ∧ 0 < pod.PodIP.length ∧ pod.Name ≠ currentHostname then
        match parseIP pod.PodIP with
        | some podIP => seeds ++ [podIP]
        | none => seeds
      else seeds)
    []

/-- Lines 134-137: the namespace whose pods are listed. -/
def podNamespace (w : World) : GoString :=
  let ns := os.Getenv w.env KUBERNETES_NAMESPACE
  if ns.length = 0 then w.namespaceDefault else ns

/-- `discoverSeedsFromKubernetesMaster` (lines 110-159). -/
def discoverSeedsFromKubernetesMaster (w : World) : Run (List IP) :=
  let kubeMaster := kubeMasterEndpoint w.env
  if 0 < (os.Getenv w.env KUBERNETES_SELECTOR).length ∧ 0 < kubeMaster.length then
    let kubeMaster := withScheme kubeMaster
    let cfg := clientConfig w.env kubeMaster
    if w.newClient cfg then
      let sel := os.Getenv w.env KUBERNETES_SELECTOR
      match w.labelsParse sel with
      | none => ([Call.newClient cfg, Call.labelsParse sel], .ok [])
      | some selector =>
        let ns := podNamespace w
        match w.podsList cfg ns selector with
        | none =>
          ([Call.newClient cfg, Call.labelsParse sel, Call.podsList cfg ns selector], .ok [])
        | some items =>
          let currentHostname := w.hostname.getD []
          ([Call.newClient cfg, Call.labelsParse sel, Call.podsList cfg ns selector,
              Call.hostname],
            .ok (collectPodIPs w.parseIP currentHostname items))
    else ([Call.newClient cfg], .error Fatal.clientDied)
  else ([], .ok [])

/-- `discoverSeeds` (lines 91-99). -/
def discoverSeeds (w : World) : Run (List IP) :=
  let r :=
    if 0 < (os.Getenv w.env CLUSTER_DNS).length then discoverSeedsFromDNS w
    else discoverSeedsFromKubernetesMaster w
  (Call.discoverSeeds :: r.1, r.2)

/-- Lines 35-42 of `main`: the broker port. -/
def brokerPort (env : Env) : Int :=
  if 0 < (os.Getenv env INFLUXDB_BROKER_PORT).length then
    match strconv.Atoi (os.Getenv env INFLUXDB_BROKER_PORT) with
    | none => defaultBrokerPort
    | some parsedBrokerPort => parsedBrokerPort
  else defaultBrokerPort

/-- Lines 51-59 of `main`: the environment after the loop over the interface
addresses, which sets `IP_ADDRESS` to the first address that is not a loopback
address and is IPv4, and stops there.  (The comment on line 52 speaks of
displaying the address; the code prints nothing and sets the variable.) -/
def setIPAddress (other : IP → GoString) (env : Env) : List Addr → Env
  | [] => env
  | Addr.other :: addrs => setIPAddress other env addrs
  | Addr.ipNet ip :: addrs =>
    if !net.IsLoopback ip then
      match net.To4 ip with
      | some _ => os.Setenv env IP_ADDRESS (net.ipString other ip)
      | none => setIPAddress other env addrs
    else setIPAddress other env addrs

/-- The world after the loop over the interface addresses: only the environment
has changed. -/
def withIPAddress (w : World) (addrs : List Addr) : World :=
  { w with env := setIPAddress w.ipStringOther w.env addrs }

/-- The text of `fmt.Sprintf("http://%v:%d", seedIP, brokerPort)`. -/
def seedURL (other : IP → GoString) (seedIP : IP) (port : Int) : GoString :=
  "http://".toList ++ net.ipString other seedIP ++ ":".toList ++ fmtInt port

/-- `main` up to the call of `t.Execute` (lines 34-78): the calls made, and the
`Seeds` of the context handed to the template, or the way the process ended
before.  The template itself and the launch of the daemon are outside. -/
def main (w : World) : Run (List GoString) :=
  let port := brokerPort w.env
  match w.interfaceAddrs with
  | none => ([], .error Fatal.interfaceAddrs)
  | some addrs =>
    let w1 := withIPAddress w addrs
    if w.createFile then
      if (os.Getenv w1.env INFLUXDB_SEEDS).length = 0 then
        match discoverSeeds w1 with
        | (calls, .error e) => (calls, .error e)
        | (calls, .ok discoveredSeeds) =>
          (calls, .ok (discoveredSeeds.foldl
            (fun seeds seedIP => seeds ++ [seedURL w.ipStringOther seedIP port]) []))
      else ([], .ok (strings.Split (os.Getenv w1.env INFLUXDB_SEEDS) ','))
    else ([], .error Fatal.createFile)

/-! ## Sample worlds -/

/-- An environment given by a list of settings. -/
def envOf (vars : List (GoString × GoString)) : Env :=
  fun k => vars.lookup k

/-- The value of a run of decimal digits. -/
def digitsValue (ds : GoString) : Nat :=
  ds.foldl (fun acc d => acc * 10 + (d.toNat - 48)) 0

/-- The resolver of the sample worlds: dotted decimal text of four numbers up to
255 gives the 16-byte form `net.ParseIP` returns for an IPv4 address, any other
text gives nil. -/
def parseDottedQuad (s : GoString) : Option IP :=
  let parts := strings.Split s '.'
  if parts.length = 4
      ∧ parts.all (fun p => decide (p ≠ []) && p.all Char.isDigit && decide (digitsValue p ≤ 255))
  then some ([0, 0, 0, 0, 0, 0, 0, 0, 0, 0, 255, 255] ++ parts.map digitsValue)
  else none

/-- The interface addresses of the sample worlds. -/
def sampleAddrs : List Addr := [Addr.ipNet [127, 0, 0, 1], Addr.ipNet [172, 17, 0, 2]]

/-- A world with an empty environment in which nothing is found: one interface
address besides the loopback, no DNS answer, a client that can be built, selectors
that parse, a pod listing that fails, and the hostname `node-a`. -/
def quietWorld : World where
  env := fun _ => none
  interfaceAddrs := some sampleAddrs
  createFile := true
  lookupIP := fun _ => none
  parseIP := parseDottedQuad
  ipStringOther := fun _ => "?".toList
  newClient := fun _ => true
  labelsParse := fun s => some ⟨s.length⟩
  namespaceDefault := "default".toList
  podsList := fun _ _ _ => none
  hostname := some "node-a".toList

/-- The selector text used in the sample worlds. -/
def sampleSelector : GoString := "app=influxdb".toList

/-- The name the sample worlds resolve. -/
def sampleDNSName : GoString := "influxdb.local".toList

/-- A resolver that knows `name` only. -/
def resolverFor (name : GoString) (ips : List IP) : GoString → Option (List IP) :=
  fun host => if host = name then some ips else none

/-- Explicit seeds are set, with a blank after a comma and an empty piece, and so
are the DNS name and the selector. -/
def explicitWorld : World :=
  { quietWorld with
    env := envOf [(INFLUXDB_SEEDS, "http://a:8086, http://b:9000,,c".toList),
      (CLUSTER_DNS, sampleDNSName), (KUBERNETES_SELECTOR, sampleSelector)]
    lookupIP := resolverFor sampleDNSName [[10, 0, 0, 1]] }

/-- Only the DNS name is set, and it resolves to 10.0.0.1 and 10.0.0.2. -/
def dnsWorld : World :=
  { quietWorld with
    env := envOf [(CLUSTER_DNS, sampleDNSName)]
    lookupIP := resolverFor sampleDNSName [[10, 0, 0, 1], [10, 0, 0, 2]] }

/-- The DNS name resolves to one address given twice, and the broker port is 9096. -/
def portWorld : World :=
  { quietWorld with
    env := envOf [(CLUSTER_DNS, sampleDNSName), (INFLUXDB_BROKER_PORT, "9096".toList)]
    lookupIP := resolverFor sampleDNSName [[10, 0, 0, 1], [10, 0, 0, 1]] }

/-- As `portWorld`, with a broker port that is no number. -/
def badPortWorld : World :=
  { portWorld with
    env := envOf [(CLUSTER_DNS, sampleDNSName), (INFLUXDB_BROKER_PORT, "80a".toList)] }

/-- `INFLUXDB_SEEDS` is set to the empty string and the DNS name resolves. -/
def emptySeedsWorld : World :=
  { quietWorld with
    env := envOf [(INFLUXDB_SEEDS, []), (CLUSTER_DNS, sampleDNSName)]
    lookupIP := resolverFor sampleDNSName [[10, 0, 0, 1]] }

/-- Everything but the seeds and the selector is set; the DNS name is set to the
empty string. -/
def unconfiguredWorld : World :=
  { quietWorld with
    env := envOf [(CLUSTER_DNS, []), (KUBERNETES_MASTER, "http://k8s:8080".toList),
      (KUBERNETES_SERVICE_HOST, "10.3.0.1".toList), (KUBERNETES_SERVICE_PORT, "443".toList),
      (KUBERNETES_NAMESPACE, "prod".toList), (KUBERNETES_INSECURE, "true".toList),
      (INFLUXDB_BROKER_PORT, "9000".toList)]
    lookupIP := resolverFor [] [[10, 0, 0, 1]]
    podsList := fun _ _ _ => some [⟨"node-b".toList, PodRunning, "10.0.0.5".toList⟩] }

/-- The address 10.0.0.5 in the 16-byte form. -/
def ip_10_0_0_5 : IP := [0, 0, 0, 0, 0, 0, 0, 0, 0, 0, 255, 255, 10, 0, 0, 5]

/-- An environment with a selector and an explicit endpoint. -/
def kubeVars : List (GoString × GoString) :=
  [(KUBERNETES_SELECTOR, sampleSelector), (KUBERNETES_MASTER, "http://k8s:8080".toList)]

/-- The configuration the client gets in the worlds built on `kubeVars`. -/
def kubeConfig : Config := ⟨"http://k8s:8080".toList, false⟩

/-- The orchestrator lists the three pods of the spec; the hostname is `node-a`. -/
def threePodsWorld : World :=
  { quietWorld with
    env := envOf kubeVars
    podsList := fun _ _ _ => some
      [⟨"node-b".toList, PodRunning, "10.0.0.5".toList⟩,
       ⟨"node-c".toList, PodRunning, []⟩,
       ⟨"node-d".toList, "Failed".toList, "10.0.0.9".toList⟩] }

/-- The orchestrator lists this host itself, with a valid IP, and one peer. -/
def selfListedWorld : World :=
  { quietWorld with
    env := envOf kubeVars
    podsList := fun _ _ _ => some
      [⟨"node-a".toList, PodRunning, "10.0.0.4".toList⟩,
       ⟨"node-b".toList, PodRunning, "10.0.0.5".toList⟩] }

/-- The one pod listed is Running, is not this host, and reports an IP that is no
address. -/
def unparsableWorld : World :=
  { quietWorld with
    env := envOf kubeVars
    podsList := fun _ _ _ => some [⟨"node-b".toList, PodRunning, "not-an-ip".toList⟩] }

/-- Only the selector is set: no endpoint override, no service host, no service
port. -/
def selectorOnlyWorld : World :=
  { quietWorld with env := envOf [(KUBERNETES_SELECTOR, sampleSelector)] }

/-- The hostname cannot be read; two Running pods are listed, one with an IP that
is no address. -/
def hostnameFailsWorld : World :=
  { quietWorld with
    env := envOf kubeVars
    hostname := none
    podsList := fun _ _ _ => some
      [⟨"node-b".toList, PodRunning, "10.0.0.5".toList⟩,
       ⟨"node-c".toList, PodRunning, "not-an-ip".toList⟩] }

/-- The client cannot be built from the endpoint: its path holds a malformed
percent escape, which the URL parser behind `client.New` rejects. -/
def clientDiesWorld : World :=
  { quietWorld with
    env := envOf [(KUBERNETES_SELECTOR, sampleSelector),
      (KUBERNETES_MASTER, "http://k8s/%zz".toList)]
    newClient := fun cfg => decide (cfg.Host ≠ "http://k8s/%zz".toList) }

/-- The endpoint override refers to another variable. -/
def expandedMasterWorld : World :=
  { quietWorld with
    env := envOf [(KUBERNETES_SELECTOR, sampleSelector),
      (KUBERNETES_MASTER, "http://${MASTER_HOST}:8080".toList),
      ("MASTER_HOST".toList, "k8s".toList)] }

/-- The endpoint comes from the service host and port the platform injects. -/
def serviceWorld : World :=
  { quietWorld with
    env := envOf [(KUBERNETES_SELECTOR, sampleSelector),
      (KUBERNETES_SERVICE_HOST, "10.3.0.1".toList), (KUBERNETES_SERVICE_PORT, "443".toList)] }

/-- The insecure flag is set to `true`. -/
def insecureWorld : World :=
  { quietWorld with env := envOf ((KUBERNETES_INSECURE, "true".toList) :: kubeVars) }

/-! ## General facts about the embedding -/

theorem getenv_eq_nil_iff (env : Env) (key : GoString) :
    os.Getenv env key = [] ↔ env key = none ∨ env key = some [] := by
  unfold os.Getenv
  cases h : env key <;> simp

theorem getenv_setIPAddress (other : IP → GoString) (env : Env) (addrs : List Addr)
    (key : GoString) (hkey : key ≠ IP_ADDRESS) :
    os.Getenv (setIPAddress other env addrs) key = os.Getenv env key := by
  induction addrs with
  | nil => rfl
  | cons a rest ih =>
    cases a with
    | other => simpa [setIPAddress] using ih
    | ipNet ip =>
      simp only [setIPAddress]
      split
      · split
        · simp [os.Getenv, os.Setenv, hkey]
        · exact ih
      · exact ih

theorem foldl_append_map {α β : Type} (f : α → β) (xs : List α) (init : List β) :
    xs.foldl (fun acc x => acc ++ [f x]) init = init ++ xs.map f := by
  induction xs generalizing init with
  | nil => simp
  | cons x rest ih => simp [ih]

theorem split_ne_nil (s : GoString) (sep : Char) : strings.Split s sep ≠ [] := by
  induction s with
  | nil => simp [strings.Split]
  | cons c rest ih =>
    unfold strings.Split
    split
    · simp
    · split <;> simp

theorem split_intercalate (s : GoString) (sep : Char) :
    [sep].intercalate (strings.Split s sep) = s := by
  induction s with
  | nil => simp [strings.Split, List.intercalate]
  | cons c rest ih =>
    unfold strings.Split
    split
    · next h =>
      have hne := split_ne_nil rest sep
      cases hsp : strings.Split rest sep with
      | nil => exact absurd hsp hne
      | cons p ps =>
        rw [hsp] at ih
        simp [List.intercalate, List.intersperse] at ih ⊢
        simp [h, ih]
    · cases hsp : strings.Split rest sep with
      | nil => exact absurd hsp (split_ne_nil rest sep)
      | cons p ps =>
        rw [hsp] at ih
        cases ps with
        | nil => simp [List.intercalate, List.intersperse] at ih ⊢; exact ih
        | cons q qs => simp [List.intercalate, List.intersperse] at ih ⊢; exact ih

theorem split_no_sep (s : GoString) (sep : Char) :
    ∀ piece ∈ strings.Split s sep, sep ∉ piece := by
  induction s with
  | nil => simp [strings.Split]
  | cons c rest ih =>
    unfold strings.Split
    split
    · intro piece hp
      rcases List.mem_cons.mp hp with h | h
      · simp [h]
      · exact ih piece h
    · next hc =>
      cases hsp : strings.Split rest sep with
      | nil => exact absurd hsp (split_ne_nil rest sep)
      | cons p ps =>
        rw [hsp] at ih
        intro piece hp
        rcases List.mem_cons.mp hp with h | h
        · subst h
          have := ih p (List.mem_cons_self _ _)
          simp [this, Ne.symm hc]
        · exact ih piece (List.mem_cons_of_mem _ h)

theorem split_length (s : GoString) (sep : Char) :
    (strings.Split s sep).length = s.count sep + 1 := by
  induction s with
  | nil => simp [strings.Split]
  | cons c rest ih =>
    unfold strings.Split
    split
    · next h => simp [h, ih]
    · next h =>
      cases hsp : strings.Split rest sep with
      | nil => exact absurd hsp (split_ne_nil rest sep)
      | cons p ps =>
        rw [hsp] at ih
        simp [List.count_cons, h] at ih ⊢
        exact ih

theorem main_explicit (w : World) (addrs : List Addr)
    (hseeds : os.Getenv w.env INFLUXDB_SEEDS ≠ [])
    (haddrs : w.interfaceAddrs = some addrs) (hcreate : w.createFile = true) :
    main w = ([], .ok (strings.Split (os.Getenv w.env INFLUXDB_SEEDS) ',')) := by
  have hk : os.Getenv (withIPAddress w addrs).env INFLUXDB_SEEDS
      = os.Getenv w.env INFLUXDB_SEEDS :=
    getenv_setIPAddress _ _ _ _ (by decide)
  simp [main, haddrs, hcreate, hk, hseeds]

theorem main_discover (w : World) (addrs : List Addr)
    (hseeds : os.Getenv w.env INFLUXDB_SEEDS = [])
    (haddrs : w.interfaceAddrs = some addrs) (hcreate : w.createFile = true) :
    main w = ((discoverSeeds (withIPAddress w addrs)).1,
      (discoverSeeds (withIPAddress w addrs)).2.map
        (fun ips => ips.map (fun ip => seedURL w.ipStringOther ip (brokerPort w.env)))) := by
  have hk : os.Getenv (withIPAddress w addrs).env INFLUXDB_SEEDS
      = os.Getenv w.env INFLUXDB_SEEDS :=
    getenv_setIPAddress _ _ _ _ (by decide)
  simp only [main, haddrs, hcreate, hk, hseeds]
  rcases hd : discoverSeeds (withIPAddress w addrs) with ⟨calls, r⟩
  cases r with
  | error e => simp [Except.map]
  | ok ips => simp [Except.map, foldl_append_map]

theorem expandLoop_cons_of_ne (mapping : GoString → GoString) (c : Char) (s : GoString)
    (hc : c ≠ '$') :
    os.expandLoop mapping 0 (c :: s) = c :: os.expandLoop mapping 0 s := by
  simp [os.expandLoop, hc]

theorem expand_append_of_no_dollar (mapping : GoString → GoString) (pre s : GoString)
    (hpre : '$' ∉ pre) :
    os.Expand (pre ++ s) mapping = pre ++ os.Expand s mapping := by
  induction pre with
  | nil => rfl
  | cons c rest ih =>
    have hc : c ≠ '$' := fun h => hpre (by simp [h])
    have hrest : '$' ∉ rest := fun h => hpre (List.mem_cons_of_mem _ h)
    have := ih hrest
    simp only [os.Expand] at this ⊢
    rw [List.cons_append, expandLoop_cons_of_ne _ _ _ hc, this, List.cons_append]

theorem expand_of_no_dollar (mapping : GoString → GoString) (s : GoString) (hs : '$' ∉ s) :
    os.Expand s mapping = s := by
  have := expand_append_of_no_dollar mapping s [] hs
  simpa [os.Expand, os.expandLoop] using this

theorem expandEnv_serviceEndpoint (env : Env) :
    os.ExpandEnv env serviceEndpoint
      = os.Getenv env KUBERNETES_SERVICE_HOST ++ ':' :: os.Getenv env KUBERNETES_SERVICE_PORT := by
  have h : os.ExpandEnv env serviceEndpoint
      = os.Getenv env KUBERNETES_SERVICE_HOST
        ++ ':' :: (os.Getenv env KUBERNETES_SERVICE_PORT ++ []) := by
    rfl
  rw [h, List.append_nil]

theorem hasPrefix_iff (s pre : GoString) :
    strings.HasPrefix s pre = true ↔ ∃ t, s = pre ++ t := by
  unfold strings.HasPrefix
  rw [List.isPrefixOf_iff_prefix]
  constructor
  · rintro ⟨t, ht⟩
    exact ⟨t, ht.symm⟩
  · rintro ⟨t, ht⟩
    exact ⟨t, ht.symm⟩

theorem withScheme_has_scheme (kubeMaster : GoString) :
    strings.HasPrefix (withScheme kubeMaster) schemeHTTP = true
    ∨ strings.HasPrefix (withScheme kubeMaster) schemeHTTPS = true := by
  unfold withScheme
  cases h1 : strings.HasPrefix kubeMaster schemeHTTP
  · cases h2 : strings.HasPrefix kubeMaster schemeHTTPS
    · right
      simpa using (hasPrefix_iff _ _).mpr ⟨kubeMaster, rfl⟩
    · right
      simpa using h2
  · left
    simpa using h1

theorem withScheme_of_has_scheme (kubeMaster : GoString)
    (h : strings.HasPrefix kubeMaster schemeHTTP = true
      ∨ strings.HasPrefix kubeMaster schemeHTTPS = true) :
    withScheme kubeMaster = kubeMaster := by
  unfold withScheme
  rcases h with h | h <;> simp [h]

theorem withScheme_of_no_scheme (kubeMaster : GoString)
    (h1 : strings.HasPrefix kubeMaster schemeHTTP = false)
    (h2 : strings.HasPrefix kubeMaster schemeHTTPS = false) :
    withScheme kubeMaster = schemeHTTPS ++ kubeMaster := by
  unfold withScheme
  simp [h1, h2]

theorem withScheme_idem (kubeMaster : GoString) :
    withScheme (withScheme kubeMaster) = withScheme kubeMaster :=
  withScheme_of_has_scheme _ (withScheme_has_scheme kubeMaster)

theorem expandEnv_keeps_start (env : Env) (s pre : GoString) (hpre : '$' ∉ pre)
    (h : strings.HasPrefix s pre = true) :
    strings.HasPrefix (os.ExpandEnv env s) pre = true := by
  obtain ⟨t, rfl⟩ := (hasPrefix_iff _ _).mp h
  unfold os.ExpandEnv
  rw [expand_append_of_no_dollar _ _ _ hpre]
  exact (hasPrefix_iff _ _).mpr ⟨_, rfl⟩

theorem kubeMasterEndpoint_eq (env : Env) :
    kubeMasterEndpoint env
      = os.ExpandEnv env
          (if os.Getenv env KUBERNETES_MASTER ≠ [] then os.Getenv env KUBERNETES_MASTER
           else os.Getenv env KUBERNETES_SERVICE_HOST
              ++ ':' :: os.Getenv env KUBERNETES_SERVICE_PORT) := by
  unfold kubeMasterEndpoint
  rw [expandEnv_serviceEndpoint]
  by_cases h : os.Getenv env KUBERNETES_MASTER = []
  · simp [h]
  · simp [h, List.length_pos.mpr h]

theorem collectPodIPs_eq_filterMap (parseIP : GoString → Option IP)
    (currentHostname : GoString) (items : List Pod) :
    collectPodIPs parseIP currentHostname items
      = items.filterMap (fun pod =>
          if pod.Phase = PodRunning ∧ pod.PodIP ≠ [] ∧ pod.Name ≠ currentHostname then
            parseIP pod.PodIP
          else none) := by
  have key : ∀ (init : List IP),
      items.foldl
        (fun seeds pod =>
          if pod.Phase = PodRunning ∧ 0 < pod.PodIP.length ∧ pod.Name ≠ currentHostname then
            match parseIP pod.PodIP with
            | some podIP => seeds ++ [podIP]
            | none => seeds
          else seeds)
        init
      = init ++ items.filterMap (fun pod =>
          if pod.Phase = PodRunning ∧ pod.PodIP ≠ [] ∧ pod.Name ≠ currentHostname then
            parseIP pod.PodIP
          else none) := by
    induction items with
    | nil => intro init; simp
    | cons pod rest ih =>
      intro init
      rw [List.foldl_cons, ih]
      by_cases hc : pod.Phase = PodRunning ∧ pod.PodIP ≠ [] ∧ pod.Name ≠ currentHostname
      · have hc2 : pod.Phase = PodRunning ∧ 0 < pod.PodIP.length ∧ pod.Name ≠ currentHostname :=
          ⟨hc.1, List.length_pos.mpr hc.2.1, hc.2.2⟩
        rw [List.filterMap_cons, if_pos hc, if_pos hc2]
        cases parseIP pod.PodIP with
        | none => rfl
        | some ip => simp
      · have hc2 : ¬ (pod.Phase = PodRunning ∧ 0 < pod.PodIP.length
            ∧ pod.Name ≠ currentHostname) :=
          fun h => hc ⟨h.1, List.length_pos.mp h.2.1, h.2.2⟩
        rw [List.filterMap_cons, if_neg hc, if_neg hc2]
  simpa [collectPodIPs] using key []

/-- The run of `discoverSeedsFromKubernetesMaster`, case by case. -/
theorem kube_inactive (w : World)
    (h : os.Getenv w.env KUBERNETES_SELECTOR = [] ∨ kubeMasterEndpoint w.env = []) :
    discoverSeedsFromKubernetesMaster w = ([], .ok []) := by
  unfold discoverSeedsFromKubernetesMaster
  rcases h with h | h <;> simp [h]

theorem kube_client_died (w : World)
    (hsel : os.Getenv w.env KUBERNETES_SELECTOR ≠ []) (hep : kubeMasterEndpoint w.env ≠ [])
    (hnew : w.newClient (clientConfig w.env (withScheme (kubeMasterEndpoint w.env))) = false) :
    discoverSeedsFromKubernetesMaster w
      = ([Call.newClient (clientConfig w.env (withScheme (kubeMasterEndpoint w.env)))],
          .error Fatal.clientDied) := by
  unfold discoverSeedsFromKubernetesMaster
  simp [List.length_pos.mpr hsel, List.length_pos.mpr hep, hnew]

theorem kube_selector_error (w : World)
    (hsel : os.Getenv w.env KUBERNETES_SELECTOR ≠ []) (hep : kubeMasterEndpoint w.env ≠ [])
    (hnew : w.newClient (clientConfig w.env (withScheme (kubeMasterEndpoint w.env))) = true)
    (hparse : w.labelsParse (os.Getenv w.env KUBERNETES_SELECTOR) = none) :
    discoverSeedsFromKubernetesMaster w
      = ([Call.newClient (clientConfig w.env (withScheme (kubeMasterEndpoint w.env))),
          Call.labelsParse (os.Getenv w.env KUBERNETES_SELECTOR)], .ok []) := by
  unfold discoverSeedsFromKubernetesMaster
  simp [List.length_pos.mpr hsel, List.length_pos.mpr hep, hnew, hparse]

theorem kube_list_error (w : World) (selector : Selector)
    (hsel : os.Getenv w.env KUBERNETES_SELECTOR ≠ []) (hep : kubeMasterEndpoint w.env ≠ [])
    (hnew : w.newClient (clientConfig w.env (withScheme (kubeMasterEndpoint w.env))) = true)
    (hparse : w.labelsParse (os.Getenv w.env KUBERNETES_SELECTOR) = some selector)
    (hlist : w.podsList (clientConfig w.env (withScheme (kubeMasterEndpoint w.env)))
      (podNamespace w) selector = none) :
    discoverSeedsFromKubernetesMaster w
      = ([Call.newClient (clientConfig w.env (withScheme (kubeMasterEndpoint w.env))),
          Call.labelsParse (os.Getenv w.env KUBERNETES_SELECTOR),
          Call.podsList (clientConfig w.env (withScheme (kubeMasterEndpoint w.env)))
            (podNamespace w) selector], .ok []) := by
  unfold discoverSeedsFromKubernetesMaster
  simp [List.length_pos.mpr hsel, List.length_pos.mpr hep, hnew, hparse, hlist]

theorem kube_listed (w : World) (selector : Selector) (items : List Pod)
    (hsel : os.Getenv w.env KUBERNETES_SELECTOR ≠ []) (hep : kubeMasterEndpoint w.env ≠ [])
    (hnew : w.newClient (clientConfig w.env (withScheme (kubeMasterEndpoint w.env))) = true)
    (hparse : w.labelsParse (os.Getenv w.env KUBERNETES_SELECTOR) = some selector)
    (hlist : w.podsList (clientConfig w.env (withScheme (kubeMasterEndpoint w.env)))
      (podNamespace w) selector = some items) :
    discoverSeedsFromKubernetesMaster w
      = ([Call.newClient (clientConfig w.env (withScheme (kubeMasterEndpoint w.env))),
          Call.labelsParse (os.Getenv w.env KUBERNETES_SELECTOR),
          Call.podsList (clientConfig w.env (withScheme (kubeMasterEndpoint w.env)))
            (podNamespace w) selector,
          Call.hostname],
          .ok (collectPodIPs w.parseIP (w.hostname.getD []) items)) := by
  unfold discoverSeedsFromKubernetesMaster
  simp [List.length_pos.mpr hsel, List.length_pos.mpr hep, hnew, hparse, hlist]

/-- The client configuration `discoverSeedsFromKubernetesMaster` builds when it
activates. -/
theorem kube_newClient_mem (w : World) (cfg : Config)
    (h : Call.newClient cfg ∈ (discoverSeedsFromKubernetesMaster w).1) :
    cfg = clientConfig w.env (withScheme (kubeMasterEndpoint w.env))
    ∧ os.Getenv w.env KUBERNETES_SELECTOR ≠ []
    ∧ kubeMasterEndpoint w.env ≠ [] := by
  by_cases hsel : os.Getenv w.env KUBERNETES_SELECTOR = []
  · rw [kube_inactive w (Or.inl hsel)] at h
    simp at h
  by_cases hep : kubeMasterEndpoint w.env = []
  · rw [kube_inactive w (Or.inr hep)] at h
    simp at h
  refine ⟨?_, hsel, hep⟩
  cases hnew : w.newClient (clientConfig w.env (withScheme (kubeMasterEndpoint w.env)))
  · rw [kube_client_died w hsel hep hnew] at h
    simpa using h
  cases hparse : w.labelsParse (os.Getenv w.env KUBERNETES_SELECTOR) with
  | none =>
    rw [kube_selector_error w hsel hep hnew hparse] at h
    simpa using h
  | some selector =>
    cases hlist : w.podsList (clientConfig w.env (withScheme (kubeMasterEndpoint w.env)))
        (podNamespace w) selector with
    | none =>
      rw [kube_list_error w selector hsel hep hnew hparse hlist] at h
      simpa using h
    | some items =>
      rw [kube_listed w selector items hsel hep hnew hparse hlist] at h
      simpa using h

/-- What has happened when `discoverSeedsFromKubernetesMaster` lists the pods, and
what it returns then. -/
theorem kube_podsList_mem (w : World) (cfg : Config) (ns : GoString) (sel : Selector)
    (h : Call.podsList cfg ns sel ∈ (discoverSeedsFromKubernetesMaster w).1) :
    cfg = clientConfig w.env (withScheme (kubeMasterEndpoint w.env))
    ∧ ns = podNamespace w
    ∧ w.newClient cfg = true
    ∧ w.labelsParse (os.Getenv w.env KUBERNETES_SELECTOR) = some sel
    ∧ (discoverSeedsFromKubernetesMaster w).2
        = .ok (match w.podsList cfg ns sel with
          | none => []
          | some items => collectPodIPs w.parseIP (w.hostname.getD []) items) := by
  by_cases hsel : os.Getenv w.env KUBERNETES_SELECTOR = []
  · rw [kube_inactive w (Or.inl hsel)] at h
    simp at h
  by_cases hep : kubeMasterEndpoint w.env = []
  · rw [kube_inactive w (Or.inr hep)] at h
    simp at h
  cases hnew : w.newClient (clientConfig w.env (withScheme (kubeMasterEndpoint w.env)))
  · rw [kube_client_died w hsel hep hnew] at h
    simp at h
  cases hparse : w.labelsParse (os.Getenv w.env KUBERNETES_SELECTOR) with
  | none =>
    rw [kube_selector_error w hsel hep hnew hparse] at h
    simp at h
  | some selector =>
    cases hlist : w.podsList (clientConfig w.env (withScheme (kubeMasterEndpoint w.env)))
        (podNamespace w) selector with
    | none =>
      rw [kube_list_error w selector hsel hep hnew hparse hlist] at h ⊢
      simp only [List.mem_cons, Call.podsList.injEq, reduceCtorEq, false_or, or_false,
        List.not_mem_nil] at h
      obtain ⟨rfl, rfl, rfl⟩ := h
      exact ⟨rfl, rfl, hnew, rfl, by rw [hlist]⟩
    | some items =>
      rw [kube_listed w selector items hsel hep hnew hparse hlist] at h ⊢
      simp only [List.mem_cons, Call.podsList.injEq, reduceCtorEq, false_or, or_false,
        List.not_mem_nil] at h
      obtain ⟨rfl, rfl, rfl⟩ := h
      exact ⟨rfl, rfl, hnew, rfl, by rw [hlist]⟩

theorem withScheme_no_dollar (kubeMaster : GoString) (h : '$' ∉ kubeMaster) :
    '$' ∉ withScheme kubeMaster := by
  unfold withScheme
  split
  · intro hmem
    rcases List.mem_append.mp hmem with h1 | h1
    · revert h1
      decide
    · exact h h1
  · exact h

/-- Discovery either returns a list or ends the process in `client.NewOrDie`. -/
theorem discoverSeeds_result (w : World) :
    (∃ ips, (discoverSeeds w).2 = .ok ips)
    ∨ ((discoverSeeds w).2 = .error Fatal.clientDied
      ∧ ∃ cfg, Call.newClient cfg ∈ (discoverSeeds w).1 ∧ w.newClient cfg = false) := by
  unfold discoverSeeds
  by_cases hdns : 0 < (os.Getenv w.env CLUSTER_DNS).length
  · left
    simp only [hdns, if_true]
    unfold discoverSeedsFromDNS
    simp only
    split <;> exact ⟨_, rfl⟩
  · simp only [hdns, if_false]
    by_cases hsel : os.Getenv w.env KUBERNETES_SELECTOR = []
    · left
      rw [kube_inactive w (Or.inl hsel)]
      exact ⟨[], rfl⟩
    by_cases hep : kubeMasterEndpoint w.env = []
    · left
      rw [kube_inactive w (Or.inr hep)]
      exact ⟨[], rfl⟩
    cases hnew : w.newClient (clientConfig w.env (withScheme (kubeMasterEndpoint w.env)))
    · right
      rw [kube_client_died w hsel hep hnew]
      exact ⟨rfl, _, List.mem_cons_of_mem _ (List.mem_singleton.mpr rfl), hnew⟩
    left
    cases hparse : w.labelsParse (os.Getenv w.env KUBERNETES_SELECTOR) with
    | none =>
      rw [kube_selector_error w hsel hep hnew hparse]
      exact ⟨[], rfl⟩
    | some selector =>
      cases hlist : w.podsList (clientConfig w.env (withScheme (kubeMasterEndpoint w.env)))
          (podNamespace w) selector with
      | none =>
        rw [kube_list_error w selector hsel hep hnew hparse hlist]
        exact ⟨[], rfl⟩
      | some items =>
        rw [kube_listed w selector items hsel hep hnew hparse hlist]
        exact ⟨_, rfl⟩

/-! ## The claims -/

/-- C1: for every non-empty value of INFLUXDB_SEEDS, when main reaches the template
the seeds it hands over are that value split on the comma, and no call was made: not
discoverSeeds, no DNS lookup, no orchestrator query, whatever the rest of the world
is.  The split is verbatim: joining the pieces with commas gives the value back, no
piece holds a comma, and there is one more piece than commas. -/
theorem C1_explicit_seeds_verbatim (w : World) (addrs : List Addr)
    (hseeds : os.Getenv w.env INFLUXDB_SEEDS ≠ [])
    (haddrs : w.interfaceAddrs = some addrs) (hcreate : w.createFile = true) :
    (main w).2 = .ok (strings.Split (os.Getenv w.env INFLUXDB_SEEDS) ',')
    ∧ (main w).1 = []
    ∧ [','].intercalate (strings.Split (os.Getenv w.env INFLUXDB_SEEDS) ',')
        = os.Getenv w.env INFLUXDB_SEEDS
    ∧ (∀ piece ∈ strings.Split (os.Getenv w.env INFLUXDB_SEEDS) ',', ',' ∉ piece)
    ∧ (strings.Split (os.Getenv w.env INFLUXDB_SEEDS) ',').length
        = (os.Getenv w.env INFLUXDB_SEEDS).count ',' + 1 := by
  rw [main_explicit w addrs hseeds haddrs hcreate]
  exact ⟨rfl, rfl, split_intercalate _ _, split_no_sep _ _, split_length _ _⟩

/-- C1 at a world where the DNS name and the selector are set as well: the four
pieces come out as written, the blank included, and nothing was called. -/
theorem C1_explicit_seeds_verbatim_witness :
    (main explicitWorld).1 = []
    ∧ (main explicitWorld).2
        = .ok ["http://a:8086".toList, " http://b:9000".toList, [], "c".toList] :=
  have h := C1_explicit_seeds_verbatim explicitWorld sampleAddrs (by decide) rfl rfl
  ⟨h.2.1, h.1.trans (by decide)⟩

/-- C2: when INFLUXDB_SEEDS is empty, for every list of IPs discovery returns and
every broker port, the seeds handed to the template are the texts http://ip:port of
the discovered IPs one for one, in order and with repetitions kept; a resolver that
returns 10.0.0.1 and 10.0.0.2 with port 8086 gives exactly the two seeds
http://10.0.0.1:8086 and http://10.0.0.2:8086. -/
theorem C2_discovered_seeds_formatted :
    (∀ (w : World) (addrs : List Addr) (ips : List IP) (p : Int),
      os.Getenv w.env INFLUXDB_SEEDS = [] → w.interfaceAddrs = some addrs →
      w.createFile = true → (discoverSeeds (withIPAddress w addrs)).2 = .ok ips →
      brokerPort w.env = p →
      (main w).2 = .ok (ips.map (fun ip => seedURL w.ipStringOther ip p))
      ∧ ∀ seeds, (main w).2 = .ok seeds → seeds.length = ips.length)
    ∧ (discoverSeeds (withIPAddress dnsWorld sampleAddrs)).2
        = .ok [[10, 0, 0, 1], [10, 0, 0, 2]]
    ∧ brokerPort dnsWorld.env = 8086
    ∧ (main dnsWorld).2 = .ok ["http://10.0.0.1:8086".toList, "http://10.0.0.2:8086".toList] := by
  refine ⟨?_, by decide, by decide, by decide⟩
  intro w addrs ips p hseeds haddrs hcreate hdisc hport
  rw [main_discover w addrs hseeds haddrs hcreate, hdisc, hport]
  refine ⟨rfl, ?_⟩
  intro seeds hs
  simp only [Except.map] at hs
  cases hs
  simp

/-- C2 at a world whose resolver returns the same address twice and whose broker
port is 9096: both seeds are there. -/
theorem C2_discovered_seeds_formatted_witness :
    (main portWorld).2 = .ok ["http://10.0.0.1:9096".toList, "http://10.0.0.1:9096".toList] :=
  (C2_discovered_seeds_formatted.1 portWorld sampleAddrs [[10, 0, 0, 1], [10, 0, 0, 1]] 9096
    (by decide) rfl rfl (by decide) (by decide)).1.trans (by decide)

/-- C4, as the spec states it, fails: with INFLUXDB_SEEDS set to the empty string and
a DNS name that resolves, main calls discoverSeeds, the resolver is asked, and the
seed handed to the template is the discovered address, not the one-element list
holding the empty string. -/
theorem C4_empty_seeds_counterexample :
    emptySeedsWorld.env INFLUXDB_SEEDS = some []
    ∧ main emptySeedsWorld
        = ([Call.discoverSeeds, Call.lookupIP sampleDNSName],
            .ok ["http://10.0.0.1:8086".toList])
    ∧ ¬ ((main emptySeedsWorld).2 = .ok [[]] ∧ Call.discoverSeeds ∉ (main emptySeedsWorld).1) := by
  decide

/-- C4, amended: when INFLUXDB_SEEDS is set to the empty string main treats it as
unset: discoverSeeds is called, the calls of main are those of discovery, and the
seeds are the texts http://ip:port of the discovered IPs.  Only strings.Split itself
maps the empty string to the one-element list holding the empty string. -/
theorem C4_empty_seeds_go_to_discovery (w : World) (addrs : List Addr)
    (hseeds : w.env INFLUXDB_SEEDS = some [])
    (haddrs : w.interfaceAddrs = some addrs) (hcreate : w.createFile = true) :
    Call.discoverSeeds ∈ (main w).1
    ∧ (main w).1 = (discoverSeeds (withIPAddress w addrs)).1
    ∧ (main w).2 = (discoverSeeds (withIPAddress w addrs)).2.map
        (fun ips => ips.map (fun ip => seedURL w.ipStringOther ip (brokerPort w.env)))
    ∧ strings.Split [] ',' = [[]] := by
  have hempty : os.Getenv w.env INFLUXDB_SEEDS = [] :=
    (getenv_eq_nil_iff _ _).mpr (Or.inr hseeds)
  rw [main_discover w addrs hempty haddrs hcreate]
  refine ⟨?_, rfl, rfl, rfl⟩
  simp [discoverSeeds]

/-- C4 amended, at the world of the counterexample. -/
theorem C4_empty_seeds_go_to_discovery_witness :
    Call.discoverSeeds ∈ (main emptySeedsWorld).1
    ∧ (main emptySeedsWorld).2 = .ok ["http://10.0.0.1:8086".toList] :=
  have h := C4_empty_seeds_go_to_discovery emptySeedsWorld sampleAddrs (by decide) rfl rfl
  ⟨h.1, h.2.2.1.trans (by decide)⟩

/-- C7: in every environment where INFLUXDB_SEEDS, CLUSTER_DNS and KUBERNETES_SELECTOR
are each unset or empty, main reaches the template with an empty seed list, whatever
the other variables hold, and the only call made is discoverSeeds: no DNS lookup, no
client, no pod listing. -/
theorem C7_nothing_configured_no_seeds (w : World) (addrs : List Addr)
    (hseeds : w.env INFLUXDB_SEEDS = none ∨ w.env INFLUXDB_SEEDS = some [])
    (hdns : w.env CLUSTER_DNS = none ∨ w.env CLUSTER_DNS = some [])
    (hsel : w.env KUBERNETES_SELECTOR = none ∨ w.env KUBERNETES_SELECTOR = some [])
    (haddrs : w.interfaceAddrs = some addrs) (hcreate : w.createFile = true) :
    main w = ([Call.discoverSeeds], .ok []) := by
  have h1 : os.Getenv w.env INFLUXDB_SEEDS = [] := (getenv_eq_nil_iff _ _).mpr hseeds
  have h2 : os.Getenv (withIPAddress w addrs).env CLUSTER_DNS = [] :=
    (getenv_setIPAddress _ _ _ _ (by decide)).trans ((getenv_eq_nil_iff _ _).mpr hdns)
  have h3 : os.Getenv (withIPAddress w addrs).env KUBERNETES_SELECTOR = [] :=
    (getenv_setIPAddress _ _ _ _ (by decide)).trans ((getenv_eq_nil_iff _ _).mpr hsel)
  rw [main_discover w addrs h1 haddrs hcreate]
  simp [discoverSeeds, discoverSeedsFromKubernetesMaster, h2, h3, Except.map]

/-- C7 at a world where the endpoint, the service host and port, the namespace, the
insecure flag and the broker port are all set, the DNS name is set to the empty
string, and both the resolver and the pod listing would answer. -/
theorem C7_nothing_configured_no_seeds_witness :
    main unconfiguredWorld = ([Call.discoverSeeds], .ok []) :=
  C7_nothing_configured_no_seeds unconfiguredWorld sampleAddrs
    (by decide) (by decide) (by decide) rfl rfl

/-- C10: the port in the discovered seeds is n when INFLUXDB_BROKER_PORT is non-empty
and parses as the decimal integer n, and 8086 when the variable is unset, empty or
malformed; in both cases main reaches the template. -/
theorem C10_broker_port_or_default (w : World) (addrs : List Addr) (ips : List IP)
    (hseeds : os.Getenv w.env INFLUXDB_SEEDS = [])
    (haddrs : w.interfaceAddrs = some addrs) (hcreate : w.createFile = true)
    (hdisc : (discoverSeeds (withIPAddress w addrs)).2 = .ok ips) :
    (∀ n : Int, os.Getenv w.env INFLUXDB_BROKER_PORT ≠ [] →
      strconv.Atoi (os.Getenv w.env INFLUXDB_BROKER_PORT) = some n →
      brokerPort w.env = n
      ∧ (main w).2 = .ok (ips.map (fun ip => seedURL w.ipStringOther ip n)))
    ∧ ((os.Getenv w.env INFLUXDB_BROKER_PORT = []
        ∨ strconv.Atoi (os.Getenv w.env INFLUXDB_BROKER_PORT) = none) →
      brokerPort w.env = 8086
      ∧ (main w).2 = .ok (ips.map (fun ip => seedURL w.ipStringOther ip 8086))) := by
  have hmain : (main w).2
      = .ok (ips.map (fun ip => seedURL w.ipStringOther ip (brokerPort w.env))) := by
    rw [main_discover w addrs hseeds haddrs hcreate, hdisc]
    rfl
  constructor
  · intro n hne hn
    have hp : brokerPort w.env = n := by
      have hlen : 0 < (os.Getenv w.env INFLUXDB_BROKER_PORT).length :=
        List.length_pos.mpr hne
      simp [brokerPort, hlen, hn]
    exact ⟨hp, by rw [hmain, hp]⟩
  · intro h
    have hp : brokerPort w.env = 8086 := by
      rcases h with h | h
      · simp [brokerPort, h, defaultBrokerPort]
      · simp [brokerPort, h, defaultBrokerPort]
    exact ⟨hp, by rw [hmain, hp]⟩

/-- C10 at a world with the port 9096 and at one with the malformed port 80a. -/
theorem C10_broker_port_or_default_witness :
    (main portWorld).2 = .ok ["http://10.0.0.1:9096".toList, "http://10.0.0.1:9096".toList]
    ∧ strconv.Atoi (os.Getenv badPortWorld.env INFLUXDB_BROKER_PORT) = none
    ∧ (main badPortWorld).2
        = .ok ["http://10.0.0.1:8086".toList, "http://10.0.0.1:8086".toList] :=
  ⟨((C10_broker_port_or_default portWorld sampleAddrs [[10, 0, 0, 1], [10, 0, 0, 1]]
      (by decide) rfl rfl (by decide)).1 9096 (by decide) (by decide)).2.trans (by decide),
   by decide,
   ((C10_broker_port_or_default badPortWorld sampleAddrs [[10, 0, 0, 1], [10, 0, 0, 1]]
      (by decide) rfl rfl (by decide)).2 (Or.inr (by decide))).2.trans (by decide)⟩

/-- C3, as the spec states it, fails: the one pod listed is Running, reports a
non-empty IP and is not named like this host, so the three conditions of the claim
select it, yet the result is empty, because its IP is no address and the loop drops
it; the result is not the IPs of the selected records. -/
theorem C3_unparsable_ip_counterexample :
    unparsableWorld.hostname = some "node-a".toList
    ∧ unparsableWorld.podsList kubeConfig "default".toList ⟨12⟩
        = some [⟨"node-b".toList, PodRunning, "not-an-ip".toList⟩]
    ∧ discoverSeedsFromKubernetesMaster unparsableWorld
        = ([Call.newClient kubeConfig, Call.labelsParse sampleSelector,
            Call.podsList kubeConfig "default".toList ⟨12⟩, Call.hostname], .ok [])
    ∧ ¬ (([] : List IP).map some
          = (([⟨"node-b".toList, PodRunning, "not-an-ip".toList⟩] : List Pod).filter
              (fun pod => decide (pod.Phase = PodRunning ∧ pod.PodIP ≠ []
                ∧ pod.Name ≠ "node-a".toList))).map
              (fun pod => unparsableWorld.parseIP pod.PodIP)) := by
  decide

/-- C3, amended: for every list of pod records a successful orchestrator query
returns and every current hostname, discoverSeedsFromKubernetesMaster returns, in
listing order, the parsed IPs of the records whose phase is Running, whose IP is
non-empty and parses as an address, and whose name differs from the current
hostname, and of no other record; for the three pods of the spec with hostname
node-a the result is exactly 10.0.0.5. -/
theorem C3_running_parseable_peers :
    (∀ (w : World) (cfg : Config) (ns : GoString) (sel : Selector) (items : List Pod),
      Call.podsList cfg ns sel ∈ (discoverSeedsFromKubernetesMaster w).1 →
      w.podsList cfg ns sel = some items →
      (discoverSeedsFromKubernetesMaster w).2
        = .ok (items.filterMap (fun pod =>
            if pod.Phase = PodRunning ∧ pod.PodIP ≠ [] ∧ pod.Name ≠ w.hostname.getD [] then
              w.parseIP pod.PodIP
            else none)))
    ∧ threePodsWorld.hostname = some "node-a".toList
    ∧ threePodsWorld.podsList kubeConfig "default".toList ⟨12⟩
        = some [⟨"node-b".toList, PodRunning, "10.0.0.5".toList⟩,
            ⟨"node-c".toList, PodRunning, []⟩,
            ⟨"node-d".toList, "Failed".toList, "10.0.0.9".toList⟩]
    ∧ discoverSeedsFromKubernetesMaster threePodsWorld
        = ([Call.newClient kubeConfig, Call.labelsParse sampleSelector,
            Call.podsList kubeConfig "default".toList ⟨12⟩, Call.hostname],
           .ok [ip_10_0_0_5]) := by
  refine ⟨?_, by decide, by decide, by decide⟩
  intro w cfg ns sel items hmem hlist
  have h := (kube_podsList_mem w cfg ns sel hmem).2.2.2.2
  rw [hlist] at h
  rw [h]
  exact congrArg Except.ok (collectPodIPs_eq_filterMap _ _ _)

/-- C3 amended, at a world where this host is listed as Running with a valid IP: it
is left out and the peer stays. -/
theorem C3_running_parseable_peers_witness :
    selfListedWorld.podsList kubeConfig "default".toList ⟨12⟩
        = some [⟨"node-a".toList, PodRunning, "10.0.0.4".toList⟩,
            ⟨"node-b".toList, PodRunning, "10.0.0.5".toList⟩]
    ∧ (discoverSeedsFromKubernetesMaster selfListedWorld).2 = .ok [ip_10_0_0_5] :=
  ⟨by decide,
   (C3_running_parseable_peers.1 selfListedWorld kubeConfig "default".toList ⟨12⟩
      [⟨"node-a".toList, PodRunning, "10.0.0.4".toList⟩,
       ⟨"node-b".toList, PodRunning, "10.0.0.5".toList⟩]
      (by decide) (by decide)).trans (by decide)⟩

/-- C5 at its failing input: only the selector is set, there is no endpoint
override and no service host or port, and discoverSeedsFromKubernetesMaster still
builds a client, for the host https://: , and lists the pods. -/
theorem C5_selector_without_endpoint_queries :
    selectorOnlyWorld.env KUBERNETES_MASTER = none
    ∧ selectorOnlyWorld.env KUBERNETES_SERVICE_HOST = none
    ∧ selectorOnlyWorld.env KUBERNETES_SERVICE_PORT = none
    ∧ kubeMasterEndpoint selectorOnlyWorld.env = ":".toList
    ∧ discoverSeedsFromKubernetesMaster selectorOnlyWorld
        = ([Call.newClient ⟨"https://:".toList, false⟩, Call.labelsParse sampleSelector,
            Call.podsList ⟨"https://:".toList, false⟩ "default".toList ⟨12⟩], .ok []) := by
  decide

/-- C6, as the spec states it, fails twice.  When only the hostname lookup fails,
the result is not the Running pods with a non-empty IP: of two such pods the one
whose IP is no address is dropped.  And discoverSeeds can end the bootstrap: when
the client cannot be built, client.NewOrDie panics and main never reaches the
template. -/
theorem C6_discovery_failures_counterexample :
    (hostnameFailsWorld.hostname = none
      ∧ hostnameFailsWorld.podsList kubeConfig "default".toList ⟨12⟩
          = some [⟨"node-b".toList, PodRunning, "10.0.0.5".toList⟩,
              ⟨"node-c".toList, PodRunning, "not-an-ip".toList⟩]
      ∧ (discoverSeedsFromKubernetesMaster hostnameFailsWorld).2 = .ok [ip_10_0_0_5]
      ∧ ¬ (([ip_10_0_0_5] : List IP).map some
            = (([⟨"node-b".toList, PodRunning, "10.0.0.5".toList⟩,
                 ⟨"node-c".toList, PodRunning, "not-an-ip".toList⟩] : List Pod).filter
                (fun pod => decide (pod.Phase = PodRunning ∧ pod.PodIP ≠ []))).map
                (fun pod => hostnameFailsWorld.parseIP pod.PodIP)))
    ∧ (clientDiesWorld.newClient ⟨"http://k8s/%zz".toList, false⟩ = false
      ∧ discoverSeeds clientDiesWorld
          = ([Call.discoverSeeds, Call.newClient ⟨"http://k8s/%zz".toList, false⟩],
              .error Fatal.clientDied)
      ∧ (main clientDiesWorld).2 = .error Fatal.clientDied) := by
  decide

/-- C6, amended: a failed DNS lookup gives an empty list; when the client can be
built, a selector that does not parse gives an empty list and so does a failed pod
listing; when only the hostname lookup fails the filtering still runs, against the
empty hostname, and returns the parsed IPs of the Running pods whose IP is non-empty
and parses and whose name is non-empty.  Discovery ends the process in one case only,
when client.NewOrDie cannot build the client; in every other case it returns a list
and main goes on to hand the seeds to the template. -/
theorem C6_discovery_failures_degrade (w : World) :
    (w.lookupIP (os.Getenv w.env CLUSTER_DNS) = none →
      (discoverSeedsFromDNS w).2 = .ok [])
    ∧ (w.newClient (clientConfig w.env (withScheme (kubeMasterEndpoint w.env))) = true →
        w.labelsParse (os.Getenv w.env KUBERNETES_SELECTOR) = none →
        (discoverSeedsFromKubernetesMaster w).2 = .ok [])
    ∧ (∀ (cfg : Config) (ns : GoString) (sel : Selector),
        Call.podsList cfg ns sel ∈ (discoverSeedsFromKubernetesMaster w).1 →
        w.podsList cfg ns sel = none →
        (discoverSeedsFromKubernetesMaster w).2 = .ok [])
    ∧ (∀ (cfg : Config) (ns : GoString) (sel : Selector) (items : List Pod),
        Call.podsList cfg ns sel ∈ (discoverSeedsFromKubernetesMaster w).1 →
        w.podsList cfg ns sel = some items → w.hostname = none →
        Call.hostname ∈ (discoverSeedsFromKubernetesMaster w).1
        ∧ (discoverSeedsFromKubernetesMaster w).2
          = .ok (items.filterMap (fun pod =>
              if pod.Phase = PodRunning ∧ pod.PodIP ≠ [] ∧ pod.Name ≠ [] then
                w.parseIP pod.PodIP
              else none)))
    ∧ ((∃ ips, (discoverSeeds w).2 = .ok ips)
        ∨ ((discoverSeeds w).2 = .error Fatal.clientDied
          ∧ ∃ cfg, Call.newClient cfg ∈ (discoverSeeds w).1 ∧ w.newClient cfg = false))
    ∧ (∀ (addrs : List Addr) (ips : List IP),
        os.Getenv w.env INFLUXDB_SEEDS = [] → w.interfaceAddrs = some addrs →
        w.createFile = true → (discoverSeeds (withIPAddress w addrs)).2 = .ok ips →
        ∃ seeds, (main w).2 = .ok seeds ∧ seeds.length = ips.length) := by
  refine ⟨?_, ?_, ?_, ?_, discoverSeeds_result w, ?_⟩
  · intro h
    simp [discoverSeedsFromDNS, h]
  · intro hnew hparse
    by_cases hsel : os.Getenv w.env KUBERNETES_SELECTOR = []
    · rw [kube_inactive w (Or.inl hsel)]
    by_cases hep : kubeMasterEndpoint w.env = []
    · rw [kube_inactive w (Or.inr hep)]
    rw [kube_selector_error w hsel hep hnew hparse]
  · intro cfg ns sel hmem hlist
    have h := (kube_podsList_mem w cfg ns sel hmem).2.2.2.2
    rw [hlist] at h
    exact h
  · intro cfg ns sel items hmem hlist hhost
    obtain ⟨hcfg, hns, hnew, hparse, h⟩ := kube_podsList_mem w cfg ns sel hmem
    obtain ⟨_, hsel, hep⟩ := kube_newClient_mem w
      (clientConfig w.env (withScheme (kubeMasterEndpoint w.env))) (by
        by_cases hsel : os.Getenv w.env KUBERNETES_SELECTOR = []
        · rw [kube_inactive w (Or.inl hsel)] at hmem
          simp at hmem
        by_cases hep : kubeMasterEndpoint w.env = []
        · rw [kube_inactive w (Or.inr hep)] at hmem
          simp at hmem
        subst hcfg
        rw [kube_listed w sel items hsel hep hnew hparse (by rw [← hns]; exact hlist)]
        simp)
    subst hcfg hns
    constructor
    · rw [kube_listed w sel items hsel hep hnew hparse hlist]
      simp
    · rw [hlist] at h
      rw [h, hhost]
      exact congrArg Except.ok (collectPodIPs_eq_filterMap _ _ _)
  · intro addrs ips hseeds haddrs hcreate hdisc
    rw [main_discover w addrs hseeds haddrs hcreate, hdisc]
    exact ⟨_, rfl, by simp⟩

/-- C6 amended, at the world where the hostname cannot be read: the hostname is
asked for, the pod with a valid IP is returned and main hands one seed to the
template. -/
theorem C6_discovery_failures_degrade_witness :
    (discoverSeedsFromKubernetesMaster hostnameFailsWorld).2 = .ok [ip_10_0_0_5]
    ∧ (main hostnameFailsWorld).2 = .ok ["http://10.0.0.5:8086".toList] :=
  ⟨((C6_discovery_failures_degrade hostnameFailsWorld).2.2.2.1 kubeConfig "default".toList ⟨12⟩
      [⟨"node-b".toList, PodRunning, "10.0.0.5".toList⟩,
       ⟨"node-c".toList, PodRunning, "not-an-ip".toList⟩]
      (by decide) (by decide) rfl).2.trans (by decide),
   by decide⟩

/-- C8, as the spec states it, fails: the override KUBERNETES_MASTER starts with
http:// and refers to another variable, and the host the client gets is not that
value unchanged but its expansion. -/
theorem C8_expanded_endpoint_counterexample :
    os.Getenv expandedMasterWorld.env KUBERNETES_MASTER = "http://${MASTER_HOST}:8080".toList
    ∧ strings.HasPrefix (os.Getenv expandedMasterWorld.env KUBERNETES_MASTER) schemeHTTP = true
    ∧ Call.newClient ⟨"http://k8s:8080".toList, false⟩
        ∈ (discoverSeedsFromKubernetesMaster expandedMasterWorld).1
    ∧ ¬ (∀ cfg, Call.newClient cfg ∈ (discoverSeedsFromKubernetesMaster expandedMasterWorld).1 →
          cfg.Host = withScheme (os.Getenv expandedMasterWorld.env KUBERNETES_MASTER)) := by
  refine ⟨by decide, by decide, by decide, ?_⟩
  intro h
  have h1 := h ⟨"http://k8s:8080".toList, false⟩ (by decide)
  revert h1
  decide

/-- C8, amended: whenever the orchestrator variant activates, the endpoint is the
environment expansion (os.ExpandEnv) of KUBERNETES_MASTER when that is non-empty and
otherwise of the service host, a colon and the service port.  An endpoint that
starts with http:// or https:// is kept as it is, any other endpoint is prefixed
with https://, and the host the client gets is the expansion of the result: the
expansion of the endpoint in the first case, https:// followed by the expansion of
the endpoint in the second.  The host always starts with one of the two schemes, and
normalising a normalised endpoint changes nothing.  When the configured text holds
no dollar sign nothing is expanded: the host is that text itself when it starts with
one of the two schemes, and https:// followed by that text otherwise. -/
theorem C8_client_host (w : World) (cfg : Config) (configured : GoString)
    (hcall : Call.newClient cfg ∈ (discoverSeedsFromKubernetesMaster w).1)
    (hconf : configured
      = if os.Getenv w.env KUBERNETES_MASTER ≠ [] then os.Getenv w.env KUBERNETES_MASTER
        else os.Getenv w.env KUBERNETES_SERVICE_HOST
          ++ ':' :: os.Getenv w.env KUBERNETES_SERVICE_PORT) :
    kubeMasterEndpoint w.env = os.ExpandEnv w.env configured
    ∧ ((strings.HasPrefix (os.ExpandEnv w.env configured) "http://".toList = true
          ∨ strings.HasPrefix (os.ExpandEnv w.env configured) "https://".toList = true) →
        withScheme (os.ExpandEnv w.env configured) = os.ExpandEnv w.env configured
        ∧ cfg.Host = os.ExpandEnv w.env (os.ExpandEnv w.env configured))
    ∧ (strings.HasPrefix (os.ExpandEnv w.env configured) "http://".toList = false →
        strings.HasPrefix (os.ExpandEnv w.env configured) "https://".toList = false →
        withScheme (os.ExpandEnv w.env configured)
          = "https://".toList ++ os.ExpandEnv w.env configured
        ∧ cfg.Host = "https://".toList ++ os.ExpandEnv w.env (os.ExpandEnv w.env configured))
    ∧ cfg.Host = os.ExpandEnv w.env (withScheme (os.ExpandEnv w.env configured))
    ∧ (strings.HasPrefix cfg.Host "http://".toList = true
        ∨ strings.HasPrefix cfg.Host "https://".toList = true)
    ∧ withScheme (withScheme (os.ExpandEnv w.env configured))
        = withScheme (os.ExpandEnv w.env configured)
    ∧ ('$' ∉ configured →
        cfg.Host = withScheme configured
        ∧ ((strings.HasPrefix configured "http://".toList = true
              ∨ strings.HasPrefix configured "https://".toList = true) →
            cfg.Host = configured)
        ∧ (strings.HasPrefix configured "http://".toList = false →
            strings.HasPrefix configured "https://".toList = false →
            cfg.Host = "https://".toList ++ configured)) := by
  obtain ⟨hcfg, _, _⟩ := kube_newClient_mem w cfg hcall
  have hep : kubeMasterEndpoint w.env = os.ExpandEnv w.env configured := by
    rw [kubeMasterEndpoint_eq, hconf]
  have hhost : cfg.Host = os.ExpandEnv w.env (withScheme (os.ExpandEnv w.env configured)) := by
    rw [hcfg, hep]
    rfl
  refine ⟨hep, ?_, ?_, hhost, ?_, withScheme_idem _, ?_⟩
  · intro h
    have hk := withScheme_of_has_scheme (os.ExpandEnv w.env configured) h
    exact ⟨hk, by rw [hhost, hk]⟩
  · intro h1 h2
    have hk := withScheme_of_no_scheme (os.ExpandEnv w.env configured) h1 h2
    refine ⟨hk, ?_⟩
    rw [hhost, hk]
    exact expand_append_of_no_dollar _ schemeHTTPS _ (by decide)
  · rw [hhost]
    rcases withScheme_has_scheme (os.ExpandEnv w.env configured) with h | h
    · exact Or.inl (expandEnv_keeps_start _ _ _ (by decide) h)
    · exact Or.inr (expandEnv_keeps_start _ _ _ (by decide) h)
  · intro hno
    have h1 : os.ExpandEnv w.env configured = configured := expand_of_no_dollar _ _ hno
    have hval : cfg.Host = withScheme configured := by
      rw [hhost, h1]
      exact expand_of_no_dollar _ _ (withScheme_no_dollar _ hno)
    refine ⟨hval, ?_, ?_⟩
    · intro h
      rw [hval]
      exact withScheme_of_has_scheme configured h
    · intro h2 h3
      rw [hval]
      exact withScheme_of_no_scheme configured h2 h3

/-- C8 amended, at a world where the endpoint comes from the service host and
port: the host is https:// followed by host, colon and port. -/
theorem C8_client_host_witness :
    Call.newClient ⟨"https://10.3.0.1:443".toList, false⟩
        ∈ (discoverSeedsFromKubernetesMaster serviceWorld).1
    ∧ ("https://10.3.0.1:443".toList = "https://".toList ++ "10.3.0.1:443".toList) :=
  ⟨by decide,
   ((C8_client_host serviceWorld ⟨"https://10.3.0.1:443".toList, false⟩ "10.3.0.1:443".toList
      (by decide) (by decide)).2.2.2.2.2.2 (by decide)).2.2 (by decide) (by decide)⟩

/-- C9: the Insecure flag of the client configuration is true exactly when
KUBERNETES_INSECURE is non-empty and parses as the boolean true, that is, is one of
1, t, T, true, TRUE, True; it is false when the variable is unset, empty, parses as
false or does not parse. -/
theorem C9_insecure_flag (w : World) (cfg : Config)
    (hcall : Call.newClient cfg ∈ (discoverSeedsFromKubernetesMaster w).1) :
    (cfg.Insecure = true ↔
      os.Getenv w.env KUBERNETES_INSECURE ≠ []
      ∧ strconv.ParseBool (os.Getenv w.env KUBERNETES_INSECURE) = some true)
    ∧ ((w.env KUBERNETES_INSECURE = none ∨ w.env KUBERNETES_INSECURE = some []
        ∨ strconv.ParseBool (os.Getenv w.env KUBERNETES_INSECURE) = some false
        ∨ strconv.ParseBool (os.Getenv w.env KUBERNETES_INSECURE) = none) →
      cfg.Insecure = false)
    ∧ (strconv.ParseBool (os.Getenv w.env KUBERNETES_INSECURE) = some true ↔
      os.Getenv w.env KUBERNETES_INSECURE
        ∈ ["1".toList, "t".toList, "T".toList, "true".toList, "TRUE".toList, "True".toList]) := by
  obtain ⟨hcfg, _, _⟩ := kube_newClient_mem w cfg hcall
  have hins : cfg.Insecure
      = (decide (0 < (os.Getenv w.env KUBERNETES_INSECURE).length)
        && (strconv.ParseBool (os.Getenv w.env KUBERNETES_INSECURE)).getD false) := by
    rw [hcfg]
    rfl
  refine ⟨?_, ?_, ?_⟩
  · rw [hins]
    cases hp : strconv.ParseBool (os.Getenv w.env KUBERNETES_INSECURE) with
    | none => simp
    | some b => cases b <;> simp [List.length_pos]
  · intro h
    rw [hins]
    rcases h with h | h | h | h
    · have : os.Getenv w.env KUBERNETES_INSECURE = [] :=
        (getenv_eq_nil_iff _ _).mpr (Or.inl h)
      simp [this]
    · have : os.Getenv w.env KUBERNETES_INSECURE = [] :=
        (getenv_eq_nil_iff _ _).mpr (Or.inr h)
      simp [this]
    · simp [h]
    · simp [h]
  · constructor
    · intro h
      unfold strconv.ParseBool at h
      split at h
      · next hm => exact hm
      · split at h <;> cases h
    · intro hm
      unfold strconv.ParseBool
      rw [if_pos hm]

/-- C9 at a world where KUBERNETES_INSECURE is set to true: the client is built
with the flag on. -/
theorem C9_insecure_flag_witness :
    Call.newClient ⟨"http://k8s:8080".toList, true⟩
        ∈ (discoverSeedsFromKubernetesMaster insecureWorld).1
    ∧ os.Getenv insecureWorld.env KUBERNETES_INSECURE = "true".toList :=
  ⟨by decide,
   by
    have h := (C9_insecure_flag insecureWorld ⟨"http://k8s:8080".toList, true⟩
      (by decide)).1.mp rfl
    revert h
    decide⟩

end StartInfluxdb
